import Mathlib

/-!
Shallow embedding of the avatar-chat monitoring dashboard
(sessions table, messages table, the SessionsList lifecycle handlers,
the HeyGen HTTP client, and the session statistics calculation).

Modelling conventions:
* timestamps are natural numbers; a nullable column is an Option;
* statuses and senders are the literal strings the code uses;
* a supabase `update(payload).eq(column, v)` over the sessions table is a
  map over the row list that applies the payload to every row whose column
  equals v;
* fallible HTTP calls are driven by an explicit outcome oracle
  (`FetchOutcome`), so exceptional paths become ordinary branches.
-/

/-- A Postgres interval value rendered as h:m:s, the form stored in the
generated `duration` column of the sessions table. -/
structure PgInterval where
  h : Nat
  m : Nat
  s : Nat
  deriving DecidableEq, Repr

/-- A row of the `sessions` table, with the columns declared by the
migrations and read by the `SessionsList` component. -/
structure Session where
  session_id : String
  start_time : Nat
  end_time : Option Nat
  duration : Option PgInterval
  status : String
  heygen_status : Option String
  last_sync_at : Option Nat
  is_relevant : Bool
  is_archived : Bool
  deleted_at : Option Nat
  deriving DecidableEq, Repr

/-- A row of the `messages` table. -/
structure Message where
  session_id : String
  sender : String
  message : String
  timestamp : Nat
  deriving DecidableEq, Repr

/-- Model of `supabase.from('sessions').update(f).eq('session_id', sid)`:
apply the payload `f` to every row whose `session_id` equals `sid`. -/
def updateSessions (sid : String) (f : Session → Session) (db : List Session) :
    List Session :=
  db.map (fun s => if s.session_id == sid then f s else s)

/-- `SessionsList.handleToggleRelevant`: writes `is_relevant := !currentValue`
(the negation of the value passed in from the UI) on the targeted row. -/
def handleToggleRelevant (sid : String) (currentValue : Bool)
    (db : List Session) : List Session :=
  updateSessions sid (fun s => { s with is_relevant := !currentValue }) db

/-- `SessionsList.handleToggleArchived`: writes `is_archived := !currentValue`
on the targeted row. -/
def handleToggleArchived (sid : String) (currentValue : Bool)
    (db : List Session) : List Session :=
  updateSessions sid (fun s => { s with is_archived := !currentValue }) db

/-- `SessionsList.handleMoveToTrash`: writes `deleted_at := now` (the current
time, never null) on the targeted row. -/
def handleMoveToTrash (sid : String) (now : Nat) (db : List Session) :
    List Session :=
  updateSessions sid (fun s => { s with deleted_at := some now }) db

/-- `SessionsList.handleRestoreFromTrash`: writes `deleted_at := null` on the
targeted row. -/
def handleRestoreFromTrash (sid : String) (db : List Session) :
    List Session :=
  updateSessions sid (fun s => { s with deleted_at := none }) db


/-- Session object in the provider streaming.list response; the refresh logic
uses only its session_id field. -/
structure HSession where
  session_id : String
  deriving DecidableEq, Repr

/-- Body of the streaming.list response; sessions none models a JSON body
without a sessions field. -/
structure SessionsResp where
  sessions : Option (List HSession)
  deriving DecidableEq, Repr

/-- Result object with the status and message fields the client reads. -/
structure StatusResp where
  status : String
  message : Option String
  deriving DecidableEq, Repr

/-- Outcome of one fetch call: the request or body parsing threw, the
response was non-OK (with the optional parsed error message), or it
succeeded with a parsed body. -/
inductive FetchOutcome (α : Type) where
  | thrown : FetchOutcome α
  | notOk (errMsg : Option String) : FetchOutcome α
  | ok (data : α) : FetchOutcome α
  deriving DecidableEq, Repr

def FetchOutcome.failed {α : Type} : FetchOutcome α → Bool
  | .thrown => true
  | .notOk _ => true
  | .ok _ => false

/-- Oracle for one round of HeyGen client calls: whether checkHeyGenApiKey
succeeds, and the outcome of each endpoint call. -/
structure HeyGenEnv where
  apiKeyOk : Bool
  listOutcome : FetchOutcome SessionsResp
  getOutcome : FetchOutcome StatusResp
  stopOutcome : FetchOutcome StatusResp
  chatOutcome : FetchOutcome StatusResp
  deriving DecidableEq, Repr

/-- fetchHeyGenSessions: empty session list on a missing key, a non-OK
response or a thrown exception; the parsed body otherwise. -/
def fetchHeyGenSessions (env : HeyGenEnv) : SessionsResp :=
  if env.apiKeyOk then
    match env.listOutcome with
    | .thrown => { sessions := some [] }
    | .notOk _ => { sessions := some [] }
    | .ok data => data
  else { sessions := some [] }

/-- getHeyGenSessionStatus: an object with status error on any failure. -/
def getHeyGenSessionStatus (env : HeyGenEnv) : StatusResp :=
  if env.apiKeyOk then
    match env.getOutcome with
    | .thrown => { status := "error", message := some "Failed to get session status" }
    | .notOk errMsg =>
      { status := "error", message := some (errMsg.getD "Failed to get session status") }
    | .ok data => data
  else { status := "error", message := some "HeyGen API key not configured" }

/-- Observable behaviour of one stopHeyGenSession call: its return value,
whether it queried the status endpoint, and whether it issued a request to
the stop endpoint. -/
structure StopResult where
  result : StatusResp
  queriedStatus : Bool
  issuedStop : Bool
  deriving DecidableEq, Repr

/-- stopHeyGenSession: first asks getHeyGenSessionStatus; when the provider
already reports completed it returns without calling the stop endpoint. -/
def stopHeyGenSession (env : HeyGenEnv) : StopResult :=
  if env.apiKeyOk then
    let sessionStatus := getHeyGenSessionStatus env
    if sessionStatus.status == "completed" then
      { result := { status := "completed", message := some "Session was already completed" },
        queriedStatus := true, issuedStop := false }
    else
      match env.stopOutcome with
      | .thrown =>
        { result := { status := "error", message := some "Failed to stop session" },
          queriedStatus := true, issuedStop := true }
      | .notOk errMsg =>
        { result := { status := "error", message := some (errMsg.getD "Failed to stop session") },
          queriedStatus := true, issuedStop := true }
      | .ok data => { result := data, queriedStatus := true, issuedStop := true }
  else
    { result := { status := "error", message := some "HeyGen API key not configured" },
      queriedStatus := false, issuedStop := false }

/-- getAllActiveSessions: the sessions field of fetchHeyGenSessions, or the
empty list when the key is missing or the field is absent. -/
def getAllActiveSessions (env : HeyGenEnv) : List HSession :=
  if env.apiKeyOk then
    match (fetchHeyGenSessions env).sessions with
    | none => []
    | some sessions => sessions
  else []

/-- Message of the provider transcript, with the fields syncHeyGenMessages
reads. fetchHeyGenMessages itself is absent from the repository (only its
call site exists), so — modelled from the spec: the provider API is consulted
to pull new messages — the transcript it would return is a parameter. -/
structure HMsg where
  role : String
  content : String
  timestamp : Nat
  deriving DecidableEq, Repr

/-- The local messages row syncHeyGenMessages inserts for one transcript
message: sender user exactly when the provider role is user. -/
def toLocalMessage (sid : String) (m : HMsg) : Message :=
  { session_id := sid,
    sender := if m.role == "user" then "user" else "avatar",
    message := m.content,
    timestamp := m.timestamp }

/-- syncHeyGenMessages: read the existing messages of the session, then
insert those transcript messages whose content is not among them (the
existence check runs against the snapshot read at the start); returns the
new message store. Inserts are modelled error-free (a failed insert is only
logged in the code). -/
def syncHeyGenMessages (sid : String) (transcript : List HMsg)
    (store : List Message) : List Message :=
  let existingMessages := store.filter (fun m => m.session_id == sid)
  let newMessages := transcript.filter
    (fun m => !(existingMessages.any (fun e => e.message == m.content)))
  store ++ newMessages.map (toLocalMessage sid)

/-- sendMessageToHeyGen: posts to the chat endpoint, and on success syncs the
messages of the session; any failure yields an object with status error and
leaves the store untouched. -/
def sendMessageToHeyGen (env : HeyGenEnv) (sid : String)
    (transcript : List HMsg) (store : List Message) :
    StatusResp × List Message :=
  if env.apiKeyOk then
    match env.chatOutcome with
    | .thrown =>
      ({ status := "error", message := some "Failed to send message" }, store)
    | .notOk errMsg =>
      ({ status := "error", message := some (errMsg.getD "Failed to send message") }, store)
    | .ok data => (data, syncHeyGenMessages sid transcript store)
  else ({ status := "error", message := some "HeyGen API key not configured" }, store)

/-- The local-session filter of handleRefresh: status in active, connecting
or connected, and end_time null. -/
def isLocallyActive (s : Session) : Bool :=
  (["active", "connecting", "connected"].contains s.status) && s.end_time.isNone

/-- The update payload written by handleRefresh and handleStopSession when
they complete a session. -/
def completeSession (now : Nat) (s : Session) : Session :=
  { s with status := "completed", heygen_status := some "completed",
           end_time := some now, last_sync_at := some now }

/-- One run of SessionsList.handleRefresh, given the session ids the provider
reports active: every locally active session absent from that list is
completed by an update keyed on its session_id; for the present ones the
messages are synced instead (second component: the session ids whose
messages were synced). -/
def handleRefresh (heygenIds : List String) (now : Nat) (db : List Session) :
    List Session × List String :=
  let activeSessions := db.filter isLocallyActive
  (activeSessions.foldl
    (fun acc a =>
      if heygenIds.contains a.session_id then acc
      else updateSessions a.session_id (completeSession now) acc)
    db,
   (activeSessions.filter (fun a => heygenIds.contains a.session_id)).map
     (fun a => a.session_id))

/-- The session ids handleRefresh reads from getAllActiveSessions. -/
def activeHeygenSessionIds (env : HeyGenEnv) : List String :=
  (getAllActiveSessions env).map (fun s => s.session_id)

/-- The setInterval period of the SessionsList refresh effect. -/
def refreshIntervalMs : Nat := 10000

/-- handleRefresh behind its isRefreshing re-entrancy guard: a call that
starts while a previous one is still running returns at once, leaving the
store untouched and syncing nothing. -/
def handleRefreshGuarded (isRefreshing : Bool) (heygenIds : List String)
    (now : Nat) (db : List Session) : List Session × List String :=
  if isRefreshing then (db, []) else handleRefresh heygenIds now db

/-- SessionsList.handleStopSession: calls stopHeyGenSession (its result is
not inspected), then updates the local row to completed with end and sync
timestamps; returns the provider-call record and the new store. -/
def handleStopSession (env : HeyGenEnv) (sid : String) (now : Nat)
    (db : List Session) : StopResult × List Session :=
  (stopHeyGenSession env, updateSessions sid (completeSession now) db)

/-- Model of JavaScript Date.parse restricted to the strings this code feeds
it: a sessions.duration interval rendered as h:m:s (for example 00:05:30). A
bare time-of-day string has no date component, so it is not in the
ECMAScript Date Time String Format, and the engine fallback parsers reject
it too: Date.parse returns NaN on every such string. NaN is modelled as
none. -/
def jsDateParseInterval (_d : PgInterval) : Option Rat := none

/-- parseFloat(x.toFixed(2)): x rounded to two decimals. -/
def toFixed2 (q : Rat) : Rat := (round (q * 100) : Int) / 100

/-- The averageresponsetime value computed by calculateAndStoreStats:
Date.parse(session.duration) / (1000 * 60), rounded by toFixed(2) and read
back by parseFloat, or 0 when duration is null. NaN propagates through the
division, toFixed and parseFloat unchanged. -/
def calcAverageResponseTime (duration : Option PgInterval) : Option Rat :=
  match duration with
  | none => some 0
  | some d =>
    match jsDateParseInterval d with
    | none => none
    | some ms => some (toFixed2 (ms / (1000 * 60)))

/-- Modelled from the spec: the duration h:m:s expressed in minutes. -/
def specDurationInMinutes (d : PgInterval) : Rat :=
  ((3600 * d.h + 60 * d.m + d.s : Nat) : Rat) / 60

/-- A row of the session_stats table, as written by calculateAndStoreStats
and read by the SessionStats panel. averageresponsetime none models a NaN
value. -/
structure SessionStatsRow where
  session_id : String
  totalmessages : Nat
  usermessages : Nat
  avatarmessages : Nat
  averageresponsetime : Option Rat
  sessionduration : PgInterval
  deriving DecidableEq, Repr

/-- SessionStats.calculateAndStoreStats: fetch the messages of the session,
count them (total, sender user, sender avatar), derive the response time
from the session duration, and store the row; sessionduration falls back to
00:00:00 when duration is null. -/
def calculateAndStoreStats (sid : String) (store : List Message)
    (session : Session) : SessionStatsRow :=
  let messages := store.filter (fun m => m.session_id == sid)
  { session_id := sid,
    totalmessages := messages.length,
    usermessages := (messages.filter (fun m => m.sender == "user")).length,
    avatarmessages := (messages.filter (fun m => m.sender == "avatar")).length,
    averageresponsetime := calcAverageResponseTime session.duration,
    sessionduration := session.duration.getD ⟨0, 0, 0⟩ }

/-- x.toFixed(1) read back as a number: x rounded to one decimal. -/
def toFixed1 (q : Rat) : Rat := (round (q * 10) : Int) / 10

/-- The average response time the SessionStats panel shows, in seconds:
(stats.averageresponsetime * 60).toFixed(1); NaN stays NaN. -/
def displayedResponseTimeInSeconds (avg : Option Rat) : Option Rat :=
  avg.map (fun q => toFixed1 (q * 60))

/-- The three view modes of the session list. -/
inductive ViewMode where
  | active : ViewMode
  | archived : ViewMode
  | trash : ViewMode
  deriving DecidableEq, Repr

/-- The viewMode switch of fetchSessions: the per-row predicate each mode
adds to the query. -/
def matchesViewMode : ViewMode → Session → Bool
  | .active, s => !s.is_archived && s.deleted_at.isNone
  | .archived, s => s.is_archived && s.deleted_at.isNone
  | .trash, s => s.deleted_at.isSome

/-- The part of the fetchSessions query shared by all view modes: start_time
between the two dates, and the status filter when it is not the all
filter. -/
def passesBaseFilter (filter : Option String) (startDate endDate : Nat)
    (s : Session) : Bool :=
  decide (startDate ≤ s.start_time) && decide (s.start_time ≤ endDate) &&
    (match filter with
     | none => true
     | some f => s.status == f)

def allViewModes : List ViewMode := [.active, .archived, .trash]

/-- The full fetchSessions query for one view mode (result order is not
modelled). -/
def fetchSessionsQuery (mode : ViewMode) (filter : Option String)
    (startDate endDate : Nat) (db : List Session) : List Session :=
  db.filter (fun s =>
    passesBaseFilter filter startDate endDate s && matchesViewMode mode s)

/-- Per-row effect of one refresh run: a locally active session absent from
the provider list is completed; every other row is untouched. -/
def refreshRowUpdate (heygenIds : List String) (now : Nat) (s : Session) :
    Session :=
  if isLocallyActive s && !(heygenIds.contains s.session_id) then
    completeSession now s
  else s

/-- Effect of one step of the refresh fold on a single row x, when the step
processes the active session a. -/
def stepRow (heygenIds : List String) (now : Nat) (x a : Session) : Session :=
  if heygenIds.contains a.session_id then x
  else if x.session_id == a.session_id then completeSession now x else x

/-- A concrete locally active session, used by witnesses. -/
def exampleSession : Session :=
  { session_id := "s1", start_time := 100, end_time := none, duration := none,
    status := "active", heygen_status := none, last_sync_at := none,
    is_relevant := false, is_archived := false, deleted_at := none }

/-- A concrete session already in the trash, used by counterexamples. -/
def exampleTrashedSession : Session :=
  { exampleSession with deleted_at := some 50 }

/-- A concrete environment with a missing API key. -/
def exampleEnvNoKey : HeyGenEnv :=
  { apiKeyOk := false, listOutcome := .thrown, getOutcome := .thrown,
    stopOutcome := .thrown, chatOutcome := .thrown }

/-- A concrete environment whose status endpoint reports completed. -/
def exampleEnvCompleted : HeyGenEnv :=
  { apiKeyOk := true,
    listOutcome := .ok { sessions := some [] },
    getOutcome := .ok { status := "completed", message := none },
    stopOutcome := .ok { status := "stopped", message := none },
    chatOutcome := .ok { status := "ok", message := none } }

theorem updateSessions_length (sid : String) (f : Session → Session)
    (db : List Session) : (updateSessions sid f db).length = db.length :=
  List.length_map _ _

theorem updateSessions_get (sid : String) (f : Session → Session)
    (db : List Session) (i : Nat) (hi : i < db.length) :
    (updateSessions sid f db).get ⟨i, by simpa [updateSessions] using hi⟩ =
      (if (db.get ⟨i, hi⟩).session_id == sid then f (db.get ⟨i, hi⟩)
       else db.get ⟨i, hi⟩) := by
  simp [updateSessions]

/-- C4 counterexample: for a session that is already in the trash, moving it
to the trash and then restoring it does not give back the pre-trash record
(its old deleted_at timestamp is lost), so the round-trip identity fails as
universally stated. -/
theorem trash_restore_roundtrip_cex :
    handleRestoreFromTrash "s1"
        (handleMoveToTrash "s1" 77 [exampleTrashedSession]) ≠
      [exampleTrashedSession] := by
  decide

/-- C4 (amended): moving a session to trash writes a non-null deleted_at and
restoring writes null; and on a store whose targeted rows are not already
in the trash (deleted_at null), trash followed by restore is the identity. -/
theorem trash_restore_roundtrip (sid : String) (now : Nat) (db : List Session)
    (h : ∀ s ∈ db, s.session_id = sid → s.deleted_at = none) :
    (∀ s ∈ handleMoveToTrash sid now db, s.session_id = sid →
      s.deleted_at = some now) ∧
    (∀ s ∈ handleRestoreFromTrash sid db, s.session_id = sid →
      s.deleted_at = none) ∧
    handleRestoreFromTrash sid (handleMoveToTrash sid now db) = db := by
  refine ⟨?_, ?_, ?_⟩
  · intro s hs hsid
    simp only [handleMoveToTrash, updateSessions, List.mem_map] at hs
    obtain ⟨t, ht, rfl⟩ := hs
    by_cases hc : (t.session_id == sid) = true
    · simp [hc]
    · simp only [hc, if_false] at hsid ⊢
      exact absurd hsid (by simpa using hc)
  · intro s hs hsid
    simp only [handleRestoreFromTrash, updateSessions, List.mem_map] at hs
    obtain ⟨t, ht, rfl⟩ := hs
    by_cases hc : (t.session_id == sid) = true
    · simp [hc]
    · simp only [hc, if_false] at hsid ⊢
      exact absurd hsid (by simpa using hc)
  · simp only [handleRestoreFromTrash, handleMoveToTrash, updateSessions,
      List.map_map]
    have hpt : ∀ t ∈ db,
        ((fun x => if x.session_id == sid then { x with deleted_at := none } else x) ∘
          (fun x => if x.session_id == sid then { x with deleted_at := some now } else x)) t
          = t := by
      intro t ht
      by_cases hc : (t.session_id == sid) = true
      · have hdel : t.deleted_at = none := h t ht (by simpa using hc)
        simp only [Function.comp_apply, hc, if_true]
        cases t
        simp_all
      · have hne : t.session_id ≠ sid := by simpa using hc
        simp [Function.comp_apply, hc, hne]
    calc db.map _ = db.map id := List.map_congr_left hpt
    _ = db := List.map_id db

/-- C4 witness: on a store holding one session that is not in the trash, the
amended round trip is the identity. -/
theorem trash_restore_roundtrip_witness :
    handleRestoreFromTrash "s1" (handleMoveToTrash "s1" 77 [exampleSession]) =
      [exampleSession] :=
  (trash_restore_roundtrip "s1" 77 [exampleSession] (by decide)).2.2

/-- C5: each lifecycle flag operation rewrites exactly one field on rows
whose session_id matches — is_relevant, is_archived or deleted_at — keeping
every other field of that row, and leaves every row with a different
session_id unchanged. -/
theorem lifecycle_flag_frame (sid : String) (cur : Bool) (now : Nat)
    (db : List Session) (i : Nat) (hi : i < db.length) :
    ((handleToggleRelevant sid cur db).get
        ⟨i, by simpa [handleToggleRelevant, updateSessions] using hi⟩ =
      (if (db.get ⟨i, hi⟩).session_id == sid
       then { db.get ⟨i, hi⟩ with is_relevant := !cur }
       else db.get ⟨i, hi⟩)) ∧
    ((handleToggleArchived sid cur db).get
        ⟨i, by simpa [handleToggleArchived, updateSessions] using hi⟩ =
      (if (db.get ⟨i, hi⟩).session_id == sid
       then { db.get ⟨i, hi⟩ with is_archived := !cur }
       else db.get ⟨i, hi⟩)) ∧
    ((handleMoveToTrash sid now db).get
        ⟨i, by simpa [handleMoveToTrash, updateSessions] using hi⟩ =
      (if (db.get ⟨i, hi⟩).session_id == sid
       then { db.get ⟨i, hi⟩ with deleted_at := some now }
       else db.get ⟨i, hi⟩)) ∧
    ((handleRestoreFromTrash sid db).get
        ⟨i, by simpa [handleRestoreFromTrash, updateSessions] using hi⟩ =
      (if (db.get ⟨i, hi⟩).session_id == sid
       then { db.get ⟨i, hi⟩ with deleted_at := none }
       else db.get ⟨i, hi⟩)) := by
  refine ⟨?_, ?_, ?_, ?_⟩ <;>
    simp [handleToggleRelevant, handleToggleArchived, handleMoveToTrash,
      handleRestoreFromTrash, updateSessions]

/-- C5 witness: on a one-row store, toggling relevant flips only the
is_relevant field of the targeted row. -/
theorem lifecycle_flag_frame_witness :
    (handleToggleRelevant "s1" false [exampleSession]).get ⟨0, by decide⟩ =
      { exampleSession with is_relevant := true } := by
  have h := (lifecycle_flag_frame "s1" false 7 [exampleSession] 0 (by decide)).1
  exact h.trans (by decide)

/-- C8: the session list refresh effect runs on a fixed 10000 ms interval,
and a refresh invocation that starts while a previous one is still running
returns immediately: the store is untouched and nothing is synced. -/
theorem refresh_interval_and_guard (heygenIds : List String) (now : Nat)
    (db : List Session) :
    refreshIntervalMs = 10000 ∧
    handleRefreshGuarded true heygenIds now db = (db, []) :=
  ⟨rfl, rfl⟩

theorem syncHeyGenMessages_def (sid : String) (transcript : List HMsg)
    (store : List Message) :
    syncHeyGenMessages sid transcript store =
      store ++ (transcript.filter (fun m =>
        !((store.filter (fun e => e.session_id == sid)).any
          (fun e => e.message == m.content)))).map (toLocalMessage sid) := rfl

theorem syncHeyGenMessages_covers (sid : String) (transcript : List HMsg)
    (store : List Message) (m : HMsg) (hm : m ∈ transcript) :
    ((syncHeyGenMessages sid transcript store).filter
      (fun e => e.session_id == sid)).any (fun e => e.message == m.content)
      = true := by
  rw [List.any_eq_true]
  by_cases hcase : (store.filter (fun e => e.session_id == sid)).any
      (fun e => e.message == m.content) = true
  · rw [List.any_eq_true] at hcase
    obtain ⟨e, he, hem⟩ := hcase
    refine ⟨e, ?_, hem⟩
    rw [List.mem_filter] at he ⊢
    refine ⟨?_, he.2⟩
    rw [syncHeyGenMessages_def]
    exact List.mem_append_left _ he.1
  · refine ⟨toLocalMessage sid m, ?_, by simp [toLocalMessage]⟩
    rw [List.mem_filter]
    refine ⟨?_, by simp [toLocalMessage]⟩
    rw [syncHeyGenMessages_def]
    apply List.mem_append_right
    apply List.mem_map_of_mem
    rw [List.mem_filter]
    exact ⟨hm, by simpa using hcase⟩

/-- C2: syncHeyGenMessages appends exactly the transcript messages whose
content is not already stored for the session (judged against the snapshot
read at the start), maps provider role user to sender user and every other
role to avatar, and hence a second sync against an unchanged transcript
inserts nothing. -/
theorem syncHeyGenMessages_spec (sid : String) (transcript : List HMsg)
    (store : List Message) :
    syncHeyGenMessages sid transcript store =
      store ++ (transcript.filter (fun m =>
        !((store.filter (fun e => e.session_id == sid)).any
          (fun e => e.message == m.content)))).map (toLocalMessage sid) ∧
    (∀ m : HMsg, (toLocalMessage sid m).sender =
      if m.role == "user" then "user" else "avatar") ∧
    syncHeyGenMessages sid transcript
        (syncHeyGenMessages sid transcript store) =
      syncHeyGenMessages sid transcript store := by
  refine ⟨syncHeyGenMessages_def sid transcript store, fun m => rfl, ?_⟩
  have hnil : transcript.filter (fun m =>
      !(((syncHeyGenMessages sid transcript store).filter
        (fun e => e.session_id == sid)).any
          (fun e => e.message == m.content))) = [] := by
    rw [List.filter_eq_nil_iff]
    intro m hm
    simp [syncHeyGenMessages_covers sid transcript store m hm]
  rw [syncHeyGenMessages_def sid transcript
    (syncHeyGenMessages sid transcript store), hnil]
  simp

/-- C3: stopping a session first queries the provider for its status and
issues no stop request when the provider already reports it completed; and
the local update of handleStopSession (modelled error-free, as the
no-update-error path of the code) leaves every targeted row completed with
non-null end_time and last_sync_at. -/
theorem stop_session_behaviour (env : HeyGenEnv) (sid : String) (now : Nat)
    (db : List Session) :
    (env.apiKeyOk = true → (stopHeyGenSession env).queriedStatus = true) ∧
    ((getHeyGenSessionStatus env).status = "completed" →
      (stopHeyGenSession env).issuedStop = false) ∧
    (∀ s ∈ (handleStopSession env sid now db).2, s.session_id = sid →
      s.status = "completed" ∧ s.heygen_status = some "completed" ∧
      s.end_time = some now ∧ s.last_sync_at = some now) := by
  refine ⟨?_, ?_, ?_⟩
  · intro hkey
    unfold stopHeyGenSession
    rw [hkey]
    simp only [if_true]
    split
    · rfl
    · split <;> rfl
  · intro hst
    unfold stopHeyGenSession
    by_cases hkey : env.apiKeyOk
    · simp [hkey, hst]
    · simp [hkey]
  · intro s hs hsid
    simp only [handleStopSession, updateSessions, List.mem_map] at hs
    obtain ⟨t, ht, rfl⟩ := hs
    by_cases hc : (t.session_id == sid) = true
    · simp [hc, completeSession]
    · simp only [hc, if_false] at hsid ⊢
      exact absurd hsid (by simpa using hc)

/-- C3 witness: in an environment whose status endpoint reports completed,
no stop request is issued, and the updated row is completed with the end and
sync timestamps set. -/
theorem stop_session_behaviour_witness :
    (stopHeyGenSession exampleEnvCompleted).issuedStop = false ∧
    (completeSession 9 exampleSession).status = "completed" ∧
    (completeSession 9 exampleSession).end_time = some 9 := by
  have h := stop_session_behaviour exampleEnvCompleted "s1" 9 [exampleSession]
  refine ⟨h.2.1 (by decide), ?_, ?_⟩
  · have hmem : completeSession 9 exampleSession ∈
        (handleStopSession exampleEnvCompleted "s1" 9 [exampleSession]).2 := by
      decide
    exact (h.2.2 (completeSession 9 exampleSession) hmem (by decide)).1
  · have hmem : completeSession 9 exampleSession ∈
        (handleStopSession exampleEnvCompleted "s1" 9 [exampleSession]).2 := by
      decide
    exact (h.2.2 (completeSession 9 exampleSession) hmem (by decide)).2.2.1

/-- C10: every exported HeyGen client function is a total function of its
environment in this embedding (so no exception reaches a caller), and on a
missing or placeholder API key, a non-OK response, or a thrown exception it
returns its designated fallback: an empty session list, an object with
status error, or an untouched store. -/
theorem heygen_client_fallbacks (env : HeyGenEnv) (sid : String)
    (transcript : List HMsg) (store : List Message) :
    (env.apiKeyOk = false →
      fetchHeyGenSessions env = { sessions := some [] } ∧
      getHeyGenSessionStatus env =
        { status := "error", message := some "HeyGen API key not configured" } ∧
      (stopHeyGenSession env).result =
        { status := "error", message := some "HeyGen API key not configured" } ∧
      sendMessageToHeyGen env sid transcript store =
        ({ status := "error", message := some "HeyGen API key not configured" },
          store) ∧
      getAllActiveSessions env = []) ∧
    (env.listOutcome.failed = true →
      fetchHeyGenSessions env = { sessions := some [] } ∧
      getAllActiveSessions env = []) ∧
    ((fetchHeyGenSessions env).sessions = none → getAllActiveSessions env = []) ∧
    (env.getOutcome.failed = true →
      (getHeyGenSessionStatus env).status = "error") ∧
    (env.apiKeyOk = true → env.stopOutcome.failed = true →
      (getHeyGenSessionStatus env).status ≠ "completed" →
      (stopHeyGenSession env).result.status = "error") ∧
    (env.chatOutcome.failed = true →
      (sendMessageToHeyGen env sid transcript store).1.status = "error" ∧
      (sendMessageToHeyGen env sid transcript store).2 = store) := by
  refine ⟨?_, ?_, ?_, ?_, ?_, ?_⟩
  · intro hkey
    simp [fetchHeyGenSessions, getHeyGenSessionStatus, stopHeyGenSession,
      sendMessageToHeyGen, getAllActiveSessions, hkey]
  · intro hfail
    by_cases hkey : env.apiKeyOk
    · cases hout : env.listOutcome with
      | thrown =>
        simp [fetchHeyGenSessions, getAllActiveSessions, hkey, hout]
      | notOk e =>
        simp [fetchHeyGenSessions, getAllActiveSessions, hkey, hout]
      | ok d =>
        rw [hout] at hfail
        exact absurd hfail (by simp [FetchOutcome.failed])
    · simp [fetchHeyGenSessions, getAllActiveSessions, hkey]
  · intro hnone
    by_cases hkey : env.apiKeyOk
    · simp [getAllActiveSessions, hkey, hnone]
    · simp [getAllActiveSessions, hkey]
  · intro hfail
    by_cases hkey : env.apiKeyOk
    · cases hout : env.getOutcome with
      | thrown => simp [getHeyGenSessionStatus, hkey, hout]
      | notOk e => simp [getHeyGenSessionStatus, hkey, hout]
      | ok d =>
        rw [hout] at hfail
        exact absurd hfail (by simp [FetchOutcome.failed])
    · simp [getHeyGenSessionStatus, hkey]
  · intro hkey hfail hncomp
    unfold stopHeyGenSession
    rw [hkey]
    simp only [if_true]
    rw [if_neg (by simpa using hncomp)]
    cases hout : env.stopOutcome with
    | thrown => rfl
    | notOk e => rfl
    | ok d =>
      rw [hout] at hfail
      exact absurd hfail (by simp [FetchOutcome.failed])
  · intro hfail
    by_cases hkey : env.apiKeyOk
    · cases hout : env.chatOutcome with
      | thrown => simp [sendMessageToHeyGen, hkey, hout]
      | notOk e => simp [sendMessageToHeyGen, hkey, hout]
      | ok d =>
        rw [hout] at hfail
        exact absurd hfail (by simp [FetchOutcome.failed])
    · simp [sendMessageToHeyGen, hkey]

/-- C10 witness: with the API key missing every client function returns its
fallback at once. -/
theorem heygen_client_fallbacks_witness :
    fetchHeyGenSessions exampleEnvNoKey = { sessions := some [] } ∧
    getAllActiveSessions exampleEnvNoKey = [] :=
  ⟨((heygen_client_fallbacks exampleEnvNoKey "s1" [] []).1 rfl).1,
   ((heygen_client_fallbacks exampleEnvNoKey "s1" [] []).1 rfl).2.2.2.2⟩

/-- C6 (the code evaluated at the failing input): for a stored duration of
00:05:30 the statistics calculation stores NaN as averageresponsetime —
Date.parse of a bare interval string is NaN, and NaN survives the division,
toFixed(2) and parseFloat — not the 5.5 minutes the claim states; the
display half of the claim does hold: the panel shows the stored value
multiplied by 60 and rounded to one decimal place as seconds. -/
theorem average_response_time_bug :
    calcAverageResponseTime (some ⟨0, 5, 30⟩) = none ∧
    specDurationInMinutes ⟨0, 5, 30⟩ = 11 / 2 ∧
    displayedResponseTimeInSeconds
      (calcAverageResponseTime (some ⟨0, 5, 30⟩)) = none ∧
    displayedResponseTimeInSeconds (some (11 / 2 : Rat)) = some 330 := by
  refine ⟨rfl, ?_, rfl, ?_⟩
  · norm_num [specDurationInMinutes]
  · norm_num [displayedResponseTimeInSeconds, toFixed1]

theorem length_filter_user_avatar (L : List Message)
    (h : ∀ m ∈ L, m.sender = "user" ∨ m.sender = "avatar") :
    L.length = (L.filter (fun m => m.sender == "user")).length +
      (L.filter (fun m => m.sender == "avatar")).length := by
  induction L with
  | nil => rfl
  | cons x xs ih =>
    have hx := h x (List.mem_cons_self x xs)
    have hxs := ih (fun m hm => h m (List.mem_cons_of_mem x hm))
    rcases hx with hx | hx <;>
      simp only [List.filter_cons, hx, List.length_cons, hxs] <;>
      simp <;> omega

/-- C7: the stored statistics row counts the messages of the session:
totalmessages is their number, usermessages the number with sender user,
avatarmessages the number with sender avatar; when every sender is one of
these two values, totalmessages = usermessages + avatarmessages. -/
theorem session_stats_counts (sid : String) (store : List Message)
    (session : Session) :
    (calculateAndStoreStats sid store session).totalmessages =
      (store.filter (fun m => m.session_id == sid)).length ∧
    (calculateAndStoreStats sid store session).usermessages =
      ((store.filter (fun m => m.session_id == sid)).filter
        (fun m => m.sender == "user")).length ∧
    (calculateAndStoreStats sid store session).avatarmessages =
      ((store.filter (fun m => m.session_id == sid)).filter
        (fun m => m.sender == "avatar")).length ∧
    ((∀ m ∈ store.filter (fun m => m.session_id == sid),
        m.sender = "user" ∨ m.sender = "avatar") →
      (calculateAndStoreStats sid store session).totalmessages =
        (calculateAndStoreStats sid store session).usermessages +
          (calculateAndStoreStats sid store session).avatarmessages) := by
  refine ⟨rfl, rfl, rfl, ?_⟩
  intro h
  exact length_filter_user_avatar _ h

/-- C7 witness: concrete two-message store for the session, one message per
sender. -/
theorem session_stats_counts_witness :
    (calculateAndStoreStats "s1"
      [{ session_id := "s1", sender := "user", message := "hi", timestamp := 1 },
       { session_id := "s1", sender := "avatar", message := "hello", timestamp := 2 }]
      exampleSession).totalmessages =
      (calculateAndStoreStats "s1"
        [{ session_id := "s1", sender := "user", message := "hi", timestamp := 1 },
         { session_id := "s1", sender := "avatar", message := "hello", timestamp := 2 }]
        exampleSession).usermessages +
        (calculateAndStoreStats "s1"
          [{ session_id := "s1", sender := "user", message := "hi", timestamp := 1 },
           { session_id := "s1", sender := "avatar", message := "hello", timestamp := 2 }]
          exampleSession).avatarmessages :=
  (session_stats_counts "s1"
    [{ session_id := "s1", sender := "user", message := "hi", timestamp := 1 },
     { session_id := "s1", sender := "avatar", message := "hello", timestamp := 2 }]
    exampleSession).2.2.2 (by decide)

/-- C9: for every session row exactly one of the three view-mode predicates
holds — not archived and not deleted (Active), archived and not deleted
(Archived), deleted (Trash) — and a row passing the shared status and date
filter is in the fetchSessions query result of exactly that one mode. -/
theorem view_modes_partition (s : Session) (filter : Option String)
    (startDate endDate : Nat) (db : List Session)
    (hmem : s ∈ db)
    (hbase : passesBaseFilter filter startDate endDate s = true) :
    (allViewModes.filter (fun mode => matchesViewMode mode s)).length = 1 ∧
    (∀ mode, s ∈ fetchSessionsQuery mode filter startDate endDate db ↔
      matchesViewMode mode s = true) := by
  constructor
  · cases hda : s.deleted_at <;> cases har : s.is_archived <;>
      simp [allViewModes, matchesViewMode, List.filter, hda, har]
  · intro mode
    simp [fetchSessionsQuery, List.mem_filter, hmem, hbase]

/-- C9 witness: a non-archived, non-deleted session in range matches exactly
one mode, and it is in the Active query. -/
theorem view_modes_partition_witness :
    (allViewModes.filter
      (fun mode => matchesViewMode mode exampleSession)).length = 1 ∧
    exampleSession ∈
      fetchSessionsQuery ViewMode.active none 0 1000 [exampleSession] := by
  have h := view_modes_partition exampleSession none 0 1000 [exampleSession]
    (by decide) (by decide)
  exact ⟨h.1, (h.2 ViewMode.active).2 (by decide)⟩

theorem completeSession_session_id (now : Nat) (x : Session) :
    (completeSession now x).session_id = x.session_id := rfl

theorem handleRefresh_eq_fold (heygenIds : List String) (now : Nat)
    (db : List Session) :
    handleRefresh heygenIds now db =
      ((db.filter isLocallyActive).foldl
        (fun acc a =>
          if heygenIds.contains a.session_id then acc
          else updateSessions a.session_id (completeSession now) acc) db,
       ((db.filter isLocallyActive).filter
         (fun a => heygenIds.contains a.session_id)).map
           (fun a => a.session_id)) := rfl

theorem stepRow_of_ne (heygenIds : List String) (now : Nat) (x a : Session)
    (hne : a.session_id ≠ x.session_id) : stepRow heygenIds now x a = x := by
  have hne2 : x.session_id ≠ a.session_id := Ne.symm hne
  simp [stepRow, hne2]

theorem foldl_stepRow_of_ne (heygenIds : List String) (now : Nat)
    (L : List Session) (x : Session)
    (hall : ∀ a ∈ L, a.session_id ≠ x.session_id) :
    L.foldl (stepRow heygenIds now) x = x := by
  induction L with
  | nil => rfl
  | cons a L ih =>
    rw [List.foldl_cons, stepRow_of_ne heygenIds now x a
      (hall a (List.mem_cons_self a L))]
    exact ih (fun b hb => hall b (List.mem_cons_of_mem a hb))

theorem refreshFold_getElem? (heygenIds : List String) (now : Nat)
    (L : List Session) : ∀ (db : List Session) (i : Nat),
    (L.foldl
      (fun acc a =>
        if heygenIds.contains a.session_id then acc
        else updateSessions a.session_id (completeSession now) acc) db)[i]? =
      (db[i]?).map (fun x => L.foldl (stepRow heygenIds now) x) := by
  induction L with
  | nil =>
    intro db i
    simp
  | cons a L ih =>
    intro db i
    rw [List.foldl_cons, ih]
    have hstep : (if heygenIds.contains a.session_id then db
        else updateSessions a.session_id (completeSession now) db)[i]? =
        (db[i]?).map (fun x => stepRow heygenIds now x a) := by
      by_cases hc : a.session_id ∈ heygenIds
      · simp [hc, stepRow]
      · simp [updateSessions, List.getElem?_map, stepRow, hc]
    rw [hstep, Option.map_map]
    rfl

theorem foldl_stepRow_filter (heygenIds : List String) (now : Nat)
    (db : List Session)
    (hids : (db.map (fun s => s.session_id)).Nodup)
    (x : Session) (hx : x ∈ db) :
    (db.filter isLocallyActive).foldl (stepRow heygenIds now) x =
      refreshRowUpdate heygenIds now x := by
  by_cases hact : isLocallyActive x = true
  · have hxact : x ∈ db.filter isLocallyActive :=
      List.mem_filter.mpr ⟨hx, hact⟩
    obtain ⟨l1, l2, hsplit⟩ := List.append_of_mem hxact
    have hsub : ((db.filter isLocallyActive).map
          (fun s => s.session_id)).Sublist
        (db.map (fun s => s.session_id)) :=
      (List.filter_sublist db).map _
    have hnd : ((db.filter isLocallyActive).map
        (fun s => s.session_id)).Nodup := hids.sublist hsub
    rw [hsplit, List.map_append, List.map_cons, List.nodup_append] at hnd
    obtain ⟨h1, h2, hdisj⟩ := hnd
    have hl1 : ∀ a ∈ l1, a.session_id ≠ x.session_id := by
      intro a ha heq
      exact hdisj (List.mem_map_of_mem _ ha)
        (heq ▸ List.mem_cons_self _ _)
    have hl2 : ∀ a ∈ l2, a.session_id ≠ x.session_id := by
      rw [List.nodup_cons] at h2
      intro a ha heq
      exact h2.1 (heq ▸ List.mem_map_of_mem _ ha)
    rw [hsplit, List.foldl_append, List.foldl_cons,
      foldl_stepRow_of_ne heygenIds now l1 x hl1]
    by_cases hcont : x.session_id ∈ heygenIds
    · rw [show stepRow heygenIds now x x = x from by simp [stepRow, hcont]]
      rw [foldl_stepRow_of_ne heygenIds now l2 x hl2]
      simp [refreshRowUpdate, hcont]
    · rw [show stepRow heygenIds now x x = completeSession now x from by
        simp [stepRow, hcont]]
      rw [foldl_stepRow_of_ne heygenIds now l2 (completeSession now x) (by
        intro a ha
        rw [completeSession_session_id]
        exact hl2 a ha)]
      simp [refreshRowUpdate, hact, hcont]
  · have hall : ∀ a ∈ db.filter isLocallyActive,
        a.session_id ≠ x.session_id := by
      intro a ha heq
      rw [List.mem_filter] at ha
      have hax : a = x := List.inj_on_of_nodup_map hids ha.1 hx heq
      rw [hax] at ha
      exact hact ha.2
    rw [foldl_stepRow_of_ne heygenIds now _ x hall]
    simp [refreshRowUpdate, hact]

theorem handleRefresh_fst (heygenIds : List String) (now : Nat)
    (db : List Session)
    (hids : (db.map (fun s => s.session_id)).Nodup) :
    (handleRefresh heygenIds now db).1 =
      db.map (refreshRowUpdate heygenIds now) := by
  apply List.ext_getElem?
  intro i
  rw [handleRefresh_eq_fold]
  rw [refreshFold_getElem? heygenIds now (db.filter isLocallyActive) db i]
  rw [List.getElem?_map]
  cases hdb : db[i]? with
  | none => rfl
  | some x =>
    simp only [Option.map_some']
    congr 1
    exact foldl_stepRow_filter heygenIds now db hids x
      (List.getElem?_mem hdb)

/-- C1: one refresh run rewrites each locally stored row by refreshRowUpdate
(given distinct session ids, as the schema declares session_id unique); a
locally active session (status active, connecting or connected, end_time
null) becomes completed — status completed, heygen_status completed, end_time
and last_sync_at set to the current time — exactly when its session_id is
not in the provider active list, and when it is in the list the row is left
unchanged and its session_id is among the ids whose messages are synced. -/
theorem refresh_reconciliation (heygenIds : List String) (now : Nat)
    (db : List Session)
    (hids : (db.map (fun s => s.session_id)).Nodup)
    (s : Session) (hmem : s ∈ db) (hact : isLocallyActive s = true) :
    (handleRefresh heygenIds now db).1 =
      db.map (refreshRowUpdate heygenIds now) ∧
    (heygenIds.contains s.session_id = false →
      refreshRowUpdate heygenIds now s = completeSession now s) ∧
    (heygenIds.contains s.session_id = true →
      refreshRowUpdate heygenIds now s = s ∧
      s.session_id ∈ (handleRefresh heygenIds now db).2) ∧
    (((refreshRowUpdate heygenIds now s).status = "completed" ∧
      (refreshRowUpdate heygenIds now s).heygen_status = some "completed" ∧
      (refreshRowUpdate heygenIds now s).end_time = some now ∧
      (refreshRowUpdate heygenIds now s).last_sync_at = some now) ↔
      heygenIds.contains s.session_id = false) := by
  have hupd_false : heygenIds.contains s.session_id = false →
      refreshRowUpdate heygenIds now s = completeSession now s := by
    intro hc
    have hc2 : s.session_id ∉ heygenIds := by simpa using hc
    simp [refreshRowUpdate, hact, hc2]
  have hupd_true : heygenIds.contains s.session_id = true →
      refreshRowUpdate heygenIds now s = s := by
    intro hc
    have hc2 : s.session_id ∈ heygenIds := by simpa using hc
    simp [refreshRowUpdate, hc2]
  refine ⟨handleRefresh_fst heygenIds now db hids, hupd_false, ?_, ?_⟩
  · intro hc
    refine ⟨hupd_true hc, ?_⟩
    rw [handleRefresh_eq_fold]
    apply List.mem_map_of_mem
    rw [List.mem_filter]
    exact ⟨List.mem_filter.mpr ⟨hmem, hact⟩, hc⟩
  · constructor
    · intro hfields
      cases hcc : heygenIds.contains s.session_id with
      | false => rfl
      | true =>
        rw [hupd_true hcc] at hfields
        have hcompleted : s.status = "completed" := hfields.1
        have hfalse :
            (["active", "connecting", "connected"].contains "completed")
              = false := by decide
        simp [isLocallyActive, hcompleted, hfalse] at hact
    · intro hc
      rw [hupd_false hc]
      exact ⟨rfl, rfl, rfl, rfl⟩

/-- C1 witness: a one-row store whose active session the provider still
reports active — the row is unchanged and its messages are synced. -/
theorem refresh_reconciliation_witness :
    refreshRowUpdate ["s1"] 9 exampleSession = exampleSession ∧
    "s1" ∈ (handleRefresh ["s1"] 9 [exampleSession]).2 :=
  (refresh_reconciliation ["s1"] 9 [exampleSession] (by decide)
    exampleSession (by decide) (by decide)).2.2.1 (by decide)
